import Mathlib

/-!
Shallow embedding of the resip key-value server (Rust sources: `resp.rs`,
`command.rs`, `storage.rs`, `rdb.rs`) and verification of the spec's claims
about it.

Modelling conventions:
* Rust `Instant` / `SystemTime` values are modelled as `Int` timestamps in
  milliseconds (`Instant::now()` becomes an explicit `now : Int` parameter).
* Byte buffers (`Bytes` / `BytesMut`) are `List Nat` with each element a byte
  value `< 256`; `u8` truncation (`as u8`) is explicit `% 256`.
* `HashMap<String, Value>` is an association list `List (String × Value)`
  with `mapInsert` / `mapGet` giving the insert-replaces / lookup semantics.
* Fallible Rust code returns `Except`; code that can `panic!` or `.expect`
  returns a result type with an explicit `panic` outcome.
-/

/-- UTF-8 encoding of a single character (standard 1-4 byte encoding); used to
model Rust's `str::as_bytes` and `String::len` (which count UTF-8 bytes). -/
def charUtf8 (c : Char) : List Nat :=
  let n := c.toNat
  if n < 0x80 then [n]
  else if n < 0x800 then [0xC0 + n / 64, 0x80 + n % 64]
  else if n < 0x10000 then
    [0xE0 + n / 4096, 0x80 + (n / 64) % 64, 0x80 + n % 64]
  else
    [0xF0 + n / 262144, 0x80 + (n / 4096) % 64, 0x80 + (n / 64) % 64, 0x80 + n % 64]

/-- UTF-8 bytes of a string: models Rust `s.as_bytes()`; `(strBytes s).length`
models `s.len()`. -/
def strBytes (s : String) : List Nat :=
  s.data.flatMap charUtf8

/-- Models Rust `String::from_utf8_lossy(..).to_string()` restricted to the
byte sequences the claims exercise: ASCII bytes decode to themselves.  (For
non-ASCII input the real function decodes multi-byte UTF-8 sequences and
substitutes U+FFFD for invalid ones; every concrete buffer used below is
ASCII, where the two agree byte for byte.) -/
def from_utf8_lossy (bs : List Nat) : String :=
  String.mk (bs.map (fun b => if b < 128 then Char.ofNat b else '�'))

/-- Decimal rendering of an `Int`, as Rust's `{}` formatting of an integer. -/
def intRepr (i : Int) : String :=
  if i < 0 then "-" ++ Nat.repr i.natAbs else Nat.repr i.natAbs

/-- Models Rust `str::parse::<u64>()` (`u64::from_str`): an optional leading
`+`, then one or more ASCII digits, value below `2^64`; anything else fails. -/
def parseU64 (s : String) : Option Nat :=
  let t := match s.data with
    | '+' :: rest => rest
    | l => l
  if t = [] then none
  else if t.all Char.isDigit then
    let n := t.foldl (fun acc c => acc * 10 + (c.toNat - 48)) 0
    if n < 2 ^ 64 then some n else none
  else none

/-- Little-endian integer value of a byte list (first byte least significant);
models `u32::from_le_bytes` / `u64::from_le_bytes`. -/
def leBytes (bs : List Nat) : Nat :=
  bs.foldr (fun b acc => b + 256 * acc) 0

/-! ## storage.rs : data model -/

/-- `storage::Value` — `{ value: String, expiry: Option<Instant> }`, with the
instant modelled as a millisecond timestamp. -/
structure Value where
  value : String
  expiry : Option Int
  deriving DecidableEq, Repr

/-- Insertion into the key map, with `HashMap::insert` semantics: an existing
binding for the key is replaced, otherwise the binding is added. -/
def mapInsert (m : List (String × Value)) (k : String) (v : Value) :
    List (String × Value) :=
  match m with
  | [] => [(k, v)]
  | (k', v') :: rest => if k' = k then (k, v) :: rest else (k', v') :: mapInsert rest k v

/-- Lookup in the key map, as `HashMap::get`. -/
def mapGet (m : List (String × Value)) (k : String) : Option Value :=
  match m with
  | [] => none
  | (k', v') :: rest => if k' = k then some v' else mapGet rest k

/-! ## storage.rs : glob matching (`needle_in_haystack`)

The source builds a regex string from the pattern: each `*` is emitted as
`.*` and every other character is pushed verbatim, then `Regex::new` /
`Regex::is_match` are used.  `RTok` is the token view of that regex for
patterns whose other characters are not regex metacharacters (besides `.`,
which the regex engine reads as "any character"): `*` becomes `anyStar`
(the `.*` it is rewritten to), `.` becomes `anyChar`, and any other
character is a literal.  `rust_regex_is_match` is unanchored, exactly as
`Regex::is_match` is: the regex may match any substring. -/

inductive RTok where
  | lit (c : Char)
  | anyChar
  | anyStar
  deriving DecidableEq, Repr

/-- Token view of the regex text the source builds from the pattern
(`*` ↦ `.*`, `.` ↦ any-char, other non-metacharacter ↦ literal). -/
def globToRegex (p : List Char) : List RTok :=
  p.map (fun c => if c = '*' then RTok.anyStar else if c = '.' then RTok.anyChar else RTok.lit c)

/-- Try a matcher on every suffix of the character list (including the full
list and the empty suffix), succeeding if any attempt does. -/
def matchSuffixes (f : List Char → Bool) : List Char → Bool
  | [] => f []
  | x :: xs => f (x :: xs) || matchSuffixes f xs

/-- Anchored-at-the-start match: does the token list match some prefix of the
character list?  A literal consumes exactly its character, any-char consumes
one arbitrary character, and `anyStar` (the `.*` the source writes for `*`)
consumes any number of characters before the rest of the tokens match. -/
def rmatchP : List RTok → List Char → Bool
  | [] => fun _ => true
  | .lit c :: ts => fun s =>
    match s with
    | [] => false
    | x :: xs => (c == x) && rmatchP ts xs
  | .anyChar :: ts => fun s =>
    match s with
    | [] => false
    | _ :: xs => rmatchP ts xs
  | .anyStar :: ts => matchSuffixes (rmatchP ts)

/-- Unanchored match over the whole string, as `Regex::is_match`: the regex
may start matching at any position. -/
def rust_regex_is_match (ts : List RTok) : List Char → Bool :=
  matchSuffixes (rmatchP ts)

/-- Code points of the characters the Rust regex crate treats as
metacharacters (the set its `regex::escape` escapes):
`\` `.` `+` `*` `?` `(` `)` `|` `[` `]` the two curly brackets `^` `$`
`#` `&` `-` `~`.  A pattern avoiding all of these (except `*`, which the
source rewrites) is read by the regex engine as literal text, which is the
domain on which the token model below is exact. -/
def regexMetaCodes : List Nat :=
  [92, 46, 43, 42, 63, 40, 41, 124, 91, 93, 123, 125, 94, 36, 35, 38, 45, 126]

/-- `storage::needle_in_haystack`: rewrite the pattern into a regex
(`*` ↦ `.*`, everything else verbatim) and keep the haystack entries the
regex matches (unanchored), in haystack order.  Two aspects of the source
are outside this model and are excluded by every theorem that quantifies
over patterns: a pattern character in `regexMetaCodes` other than `*` and
`.` keeps its regex semantics in the source (e.g. `+` is repetition) while
the token model would read it literally, and an outright invalid pattern
(such as a lone `(`) makes `Regex::new(..).unwrap()` panic in the source
while the model still returns a filter result. -/
def needle_in_haystack (key : String) (haystack : List String) : List String :=
  haystack.filter (fun it => rust_regex_is_match (globToRegex key.data) it.data)

/-! ## storage.rs : `InMemoryStorage` operations (the `RdbStorage` bodies for
`set` / `get` / `keys` are textually identical). -/

/-- `InMemoryStorage::set` / `RdbStorage::set`: insert into the map. -/
def InMemoryStorage.set (m : List (String × Value)) (key : String) (value : Value) :
    List (String × Value) :=
  mapInsert m key value

/-- `InMemoryStorage::get` / `RdbStorage::get`: look the key up; if the value
carries an expiry and `Instant::now() > expiry`, report absence. -/
def InMemoryStorage.get (now : Int) (m : List (String × Value)) (key : String) :
    Option Value :=
  match mapGet m key with
  | none => none
  | some value =>
    match value.expiry with
    | some expiry => if now > expiry then none else some value
    | none => some value

/-- `InMemoryStorage::keys` / `RdbStorage::keys`: run the pattern over the
map's key list and always answer `Some`. -/
def InMemoryStorage.keys (k : String) (m : List (String × Value)) :
    Option (List String) :=
  some (needle_in_haystack k (m.map (fun kv => kv.1)))

/-! ## resp.rs : reply encoding -/

/-- `resp::Entry`. -/
inductive Entry where
  | int (i : Int)
  | text (s : String)
  | simpleText (s : String)
  | nil
  deriving DecidableEq, Repr

/-- `Entry::to_string`: bulk string with byte-length prefix, simple string,
integer, or nil reply. -/
def Entry.toString : Entry → String
  | .text t => "$" ++ Nat.repr (strBytes t).length ++ "\r\n" ++ t ++ "\r\n"
  | .simpleText t => "+" ++ t ++ "\r\n"
  | .int i => ":" ++ intRepr i ++ "\r\n"
  | .nil => "$-1\r\n"

/-- `Array::to_string` from resp.rs: `*<n>\r\n` followed by each child's
encoding in order. -/
def arrayToString (xs : List Entry) : String :=
  "*" ++ Nat.repr xs.length ++ "\r\n" ++ String.join (xs.map Entry.toString)

/-! ## command.rs -/

/-- `command::CommandError` (a unit-like error value). -/
inductive CommandError where
  | mk
  deriving DecidableEq, Repr

/-- The closed set of commands, each owning its validated arguments
(the `Box<dyn Command>` variants of command.rs). -/
inductive Command where
  | ping
  | echo (args : List String)
  | get (key : String)
  | set (key value : String) (expiry : Option Int)
  | configGet (key : String)
  | save
  | keys (key : String)
  deriving DecidableEq, Repr

/-- `command::parse_arg`: the entry at the given index when it is a bulk-text
entry, `CommandError` otherwise. -/
def parse_arg (args : List Entry) (i : Nat) : Except CommandError String :=
  match args.get? i with
  | some (.text text) => .ok text
  | _ => .error CommandError.mk

/-- Outcome of `CommandParser::new`: a command, a returned `CommandError`, or
a process panic (the source's `.expect`). -/
inductive ParseResult where
  | ok (cmd : Command)
  | err
  | panic (msg : String)
  deriving DecidableEq, Repr

/-- `CommandParser::new`: match the first entry (which must be bulk text)
against the keyword table and validate the positional arguments.  The SET
branch reads the optional expiry from `args[4]` when the frame has exactly 5
entries and converts it to an absolute instant `now + millis`; a non-numeric
text there hits `.expect("could not parse number")`, i.e. a panic. -/
def CommandParser.new (now : Int) (args : List Entry) : ParseResult :=
  match args.head? with
  | some (.text cmd) =>
    match cmd with
    | "PING" => .ok .ping
    | "ECHO" =>
      .ok (.echo ((args.drop 1).filterMap
        (fun e => match e with | Entry.text t => some t | _ => none)))
    | "GET" =>
      match parse_arg args 1 with
      | .ok key => .ok (.get key)
      | .error _ => .err
    | "SET" =>
      match parse_arg args 1 with
      | .error _ => .err
      | .ok key =>
        match parse_arg args 2 with
        | .error _ => .err
        | .ok value =>
          if args.length = 5 then
            match args.get? 4 with
            | some (.text number) =>
              match parseU64 number with
              | some n => .ok (.set key value (some (now + (n : Int))))
              | none => .panic "could not parse number"
            | _ => .ok (.set key value none)
          else .ok (.set key value none)
    | "CONFIG" =>
      match parse_arg args 2 with
      | .ok key => .ok (.configGet key)
      | .error _ => .err
    | "SAVE" => .ok .save
    | "KEYS" =>
      match parse_arg args 1 with
      | .ok key => .ok (.keys key)
      | .error _ => .err
    | _ => .err
  | _ => .err

/-- `storage::RdbConfig` — `{ dir, path }`. -/
structure RdbConfig where
  dir : String
  path : String
  deriving DecidableEq, Repr

/-- Execution of a command against the storage (the `Command::execute`
implementations of command.rs, with the storage trait's state made explicit):
the current time stands in for `Instant::now()`, `st` is the key map, and
`saveResult` is the outcome of the storage's snapshot-write, consulted only
by SAVE.  Returns either `CommandError` or the (possibly updated) map
together with the reply string. -/
def Command.execute (cmd : Command) (now : Int) (st : List (String × Value))
    (saveResult : Except Unit Unit) (config : RdbConfig) :
    Except CommandError (List (String × Value) × String) :=
  match cmd with
  | .ping => .ok (st, (Entry.simpleText "PONG").toString)
  | .echo args => .ok (st, (Entry.simpleText (String.intercalate "\r\n" args)).toString)
  | .get key =>
    match InMemoryStorage.get now st key with
    | some value => .ok (st, (Entry.simpleText value.value).toString)
    | none => .ok (st, Entry.nil.toString)
  | .set key value expiry =>
    .ok (InMemoryStorage.set st key { value := value, expiry := expiry },
         (Entry.simpleText "OK").toString)
  | .configGet key =>
    if key = "dir" then .ok (st, arrayToString [.text key, .text config.dir])
    else if key = "dbfilename" then .ok (st, arrayToString [.text key, .text config.path])
    else .ok (st, Entry.nil.toString)
  | .save =>
    match saveResult with
    | .ok _ => .ok (st, Entry.nil.toString)
    | .error _ => .error CommandError.mk
  | .keys key =>
    match InMemoryStorage.keys key st with
    | none => .ok (st, Entry.nil.toString)
    | some v => .ok (st, arrayToString (v.map (fun k => Entry.text k)))

/-! ## rdb.rs : snapshot codec -/

/-- Outcome of an rdb parsing step: success, a returned error (`Err(String)`),
or a process panic (the `bytes` crate's `get_u8` / `split_to` on a too-short
buffer, or an `.unwrap()` on an error). -/
inductive PResult (α : Type) where
  | ok (a : α)
  | err (e : String)
  | panic
  deriving DecidableEq, Repr

/-- `rdb::RdbEntry`. -/
structure RdbEntry where
  key : String
  value : String
  expiry : Option Int
  deriving DecidableEq, Repr

/-- `rdb::parse_rdb_header`: requires at least 9 bytes, the magic `REDIS`,
then a big-endian `u32` version; returns the version and the remaining
buffer. -/
def parse_rdb_header (b : List Nat) : PResult (Nat × List Nat) :=
  if b.length < 9 then .err "File too short"
  else
    let magic := b.take 5
    let rest := b.drop 5
    if magic ≠ strBytes "REDIS" then .err "Invalid RDB file: not starting with REDIS"
    else
      let version :=
        rest.getD 0 0 * 16777216 + rest.getD 1 0 * 65536 + rest.getD 2 0 * 256 + rest.getD 3 0
      .ok (version, rest.drop 4)

/-- `rdb::parse_rbd_metadata`: consume bytes until the sentinel `0xFE`;
running out of buffer is an error. -/
def parse_rbd_metadata : List Nat → PResult (List Nat)
  | [] => .err "Metadata section did not end correctly"
  | b :: rest => if b = 0xFE then .ok rest else parse_rbd_metadata rest

/-- `rdb::parse_rbd_database_start`: consume bytes until the sentinel `0xFB`,
then skip the two size-hint bytes (`get_u8` twice, which panics if the buffer
is exhausted); running out of buffer without seeing `0xFB` is an error. -/
def parse_rbd_database_start : List Nat → PResult (List Nat)
  | [] => .err "Database section did not start correctly"
  | b :: rest =>
    if b = 0xFB then
      match rest with
      | _ :: _ :: r => .ok r
      | _ => .panic
    else parse_rbd_database_start rest

/-- `rdb::parse_string`: a 1-byte length prefix (`get_u8`, panicking on an
empty buffer) followed by that many bytes, decoded lossily; too few bytes is
the error `File truncated while reading key`. -/
def parse_string (b : List Nat) : PResult (String × List Nat) :=
  match b with
  | [] => .panic
  | len :: rest =>
    if rest.length < len then .err "File truncated while reading key"
    else .ok (from_utf8_lossy (rest.take len), rest.drop len)

/-- `rdb::parse_rdb_string`: a key string then a value string, wrapped into an
entry with the given expiry. -/
def parse_rdb_string (b : List Nat) (expiry : Option Int) :
    PResult (Option RdbEntry × List Nat) :=
  match parse_string b with
  | .err e => .err e
  | .panic => .panic
  | .ok (key, rest) =>
    match parse_string rest with
    | .err e => .err e
    | .panic => .panic
    | .ok (value, rest2) => .ok (some { key := key, value := value, expiry := expiry }, rest2)

/-- `rdb::parse_expiry`: `split_to(4)` (seconds, `u32` little-endian) or
`split_to(8)` (milliseconds, `u64` little-endian) — both panic when the
buffer is shorter — then one reserved byte (`get_u8`, panicking on empty).
The absolute `SystemTime` is converted to an instant relative to now: a
timestamp not earlier than the current system time `nowSys` becomes
`nowInst + (timestamp - nowSys)`, an already-past timestamp becomes
`Instant::now() - 1s`, i.e. `nowInst - 1000`.  All times in milliseconds. -/
def parse_expiry (seconds : Bool) (nowSys nowInst : Int) (b : List Nat) :
    PResult (Option Int × List Nat) :=
  let n := if seconds then 4 else 8
  if b.length < n then .panic
  else
    let ts : Int := (leBytes (b.take n) : Int) * (if seconds then 1000 else 1)
    match b.drop n with
    | [] => .panic
    | _ :: rest =>
      let expiry := if nowSys ≤ ts then nowInst + (ts - nowSys) else nowInst - 1000
      .ok (some expiry, rest)

/-- `rdb::parse_rdb_entry`: empty buffer or the terminator `0xFF` end the
entry stream; type bytes `0x00` / `0xFD` / `0xFC` introduce an entry without
expiry, with a seconds expiry, or with a milliseconds expiry; any other type
byte is the error `unknown data type`. -/
def parse_rdb_entry (nowSys nowInst : Int) (b : List Nat) :
    PResult (Option RdbEntry × List Nat) :=
  match b with
  | [] => .ok (none, [])
  | t :: rest =>
    if t = 0xFF then .ok (none, rest)
    else if t = 0x00 then parse_rdb_string rest none
    else if t = 0xFD then
      match parse_expiry true nowSys nowInst rest with
      | .err e => .err e
      | .panic => .panic
      | .ok (expiry, rest2) => parse_rdb_string rest2 expiry
    else if t = 0xFC then
      match parse_expiry false nowSys nowInst rest with
      | .err e => .err e
      | .panic => .panic
      | .ok (expiry, rest2) => parse_rdb_string rest2 expiry
    else .err "unknown data type"

/-- The entry-reading loop of `rdb::parse_rdb_file`: entries are inserted into
the map as they parse; `Ok(None)` (terminator or exhausted buffer) stops with
the map collected so far, and — decisively for claim C7 — an entry-level
`Err` also stops with the map collected so far, returned as a *success*
(the error is only printed).  `fuel` bounds the recursion; every iteration
consumes at least the type byte, so `b.length + 1` fuel is never
exhausted. -/
def entry_loop (nowSys nowInst : Int) :
    Nat → List (String × Value) → List Nat → PResult (List (String × Value))
  | 0, m, _ => .ok m
  | fuel + 1, m, b =>
    match parse_rdb_entry nowSys nowInst b with
    | .ok (some e, rest) =>
      entry_loop nowSys nowInst fuel (mapInsert m e.key { value := e.value, expiry := e.expiry }) rest
    | .ok (none, _) => .ok m
    | .err _ => .ok m
    | .panic => .panic

/-- `rdb::parse_rdb_file`: a missing file (`File::open` fails) and an empty
file both yield an empty map; otherwise header, metadata and database-start
are parsed (their errors propagate via `?`), then the entry loop runs. -/
def parse_rdb_file (nowSys nowInst : Int) (file : Option (List Nat)) :
    PResult (List (String × Value)) :=
  match file with
  | none => .ok []
  | some buf =>
    if buf.isEmpty then .ok []
    else
      match parse_rdb_header buf with
      | .err e => .err e
      | .panic => .panic
      | .ok (_, rest) =>
        match parse_rbd_metadata rest with
        | .err e => .err e
        | .panic => .panic
        | .ok rest2 =>
          match parse_rbd_database_start rest2 with
          | .err e => .err e
          | .panic => .panic
          | .ok rest3 => entry_loop nowSys nowInst (rest3.length + 1) [] rest3

/-- `rdb::write_rdb_string`: a 1-byte length prefix — `k.len() as u8`, i.e.
the byte length truncated modulo 256 — followed by *all* of the key's
bytes. -/
def write_rdb_string (k : String) : List Nat :=
  ((strBytes k).length % 256) :: strBytes k

/-- `rdb::write_rdb_file` (the buffer it writes): the literal header
`REDIS\x00\x00\x00\x09`, the literal bytes `\xFA\xFE\x01\x01`, then for each
map entry a `0x00` type byte (the expiry is never written) and the key and
value strings, and finally the terminator `0xFF`. -/
def write_rdb_file (map : List (String × Value)) : List Nat :=
  strBytes "REDIS" ++ [0x00, 0x00, 0x00, 0x09]
    ++ [0xFA, 0xFE, 0x01, 0x01]
    ++ map.flatMap (fun kv => 0x00 :: (write_rdb_string kv.1 ++ write_rdb_string kv.2.value))
    ++ [0xFF]

/-- `RdbStorage::load`: parse the snapshot file; a parse error is turned into
an `io::Error` and immediately `.unwrap()`ed — a panic — while a successful
parse replaces the map and returns `Ok(())`. -/
def RdbStorage.load (nowSys nowInst : Int) (file : Option (List Nat)) :
    PResult (List (String × Value)) :=
  match parse_rdb_file nowSys nowInst file with
  | .ok m => .ok m
  | .err _ => .panic
  | .panic => .panic

/-! ## Helper lemmas -/

/-- Looking up a key right after inserting it finds the inserted value. -/
theorem mapGet_mapInsert_self (m : List (String × Value)) (k : String) (v : Value) :
    mapGet (mapInsert m k v) k = some v := by
  induction m with
  | nil => simp [mapInsert, mapGet]
  | cons hd tl ih =>
    obtain ⟨k', v'⟩ := hd
    by_cases h : k' = k
    · simp [mapInsert, h, mapGet]
    · simp [mapInsert, h, mapGet, ih]

/-- On a pattern without `*` or `.`, the source's glob-to-regex translation
produces only literal tokens. -/
theorem globToRegex_all_lit (p : List Char) (hp : ∀ c ∈ p, c ≠ '*' ∧ c ≠ '.') :
    globToRegex p = p.map RTok.lit := by
  unfold globToRegex
  apply List.map_congr_left
  intro c hc
  have h := hp c hc
  simp [h.1, h.2]

/-- A list of literal tokens matches anchored exactly when the literal
characters are a prefix of the subject. -/
theorem rmatchP_lit_iff (cs : List Char) : ∀ s, rmatchP (cs.map RTok.lit) s = true ↔ cs <+: s := by
  induction cs with
  | nil =>
    intro s
    simp [rmatchP, List.nil_prefix]
  | cons c cs ih =>
    intro s
    cases s with
    | nil => simp [rmatchP]
    | cons x xs => simp [rmatchP, List.cons_prefix_cons, ih xs]

/-- Trying a matcher on every suffix succeeds exactly when some suffix
satisfies it. -/
theorem matchSuffixes_iff (f : List Char → Bool) :
    ∀ s, matchSuffixes f s = true ↔ ∃ t, t <:+ s ∧ f t = true := by
  intro s
  induction s with
  | nil => simp [matchSuffixes]
  | cons x xs ih =>
    simp [matchSuffixes, ih, List.suffix_cons_iff]

/-- Unanchored matching of a purely literal regex is substring containment. -/
theorem is_match_lit_iff (cs s : List Char) :
    rust_regex_is_match (cs.map RTok.lit) s = true ↔ cs <:+: s := by
  unfold rust_regex_is_match
  rw [matchSuffixes_iff]
  constructor
  · rintro ⟨t, hts, hf⟩
    exact List.infix_iff_prefix_suffix.mpr ⟨t, (rmatchP_lit_iff cs t).mp hf, hts⟩
  · intro h
    obtain ⟨t, hpre, hsuf⟩ := List.infix_iff_prefix_suffix.mp h
    exact ⟨t, hsuf, (rmatchP_lit_iff cs t).mpr hpre⟩

/-! ## Claim theorems -/

/-- C1 (counterexample): a SET frame with five entries whose positional expiry
argument `args[4]` is the non-numeric text "abc" is not handled by returning
an error — `CommandParser::new` panics (`expect("could not parse number")`). -/
theorem set_nonnumeric_expiry_panics :
    CommandParser.new 0 [.text "SET", .text "k", .text "v", .text "PX", .text "abc"]
      = ParseResult.panic "could not parse number" := rfl

/-- C1 (amended): an unknown command name and a missing GET argument are
handled by returning an error, but a 5-entry SET frame whose positional
expiry argument `args[4]` is non-numeric text makes `CommandParser::new`
panic instead of returning an error. -/
theorem commandParser_error_vs_panic (now : Int) (k v p s : String)
    (hs : parseU64 s = none) :
    CommandParser.new now [.text "FOOX"] = ParseResult.err
    ∧ CommandParser.new now [.text "GET"] = ParseResult.err
    ∧ CommandParser.new now [.text "SET", .text k, .text v, .text p, .text s]
        = ParseResult.panic "could not parse number" := by
  refine ⟨rfl, rfl, ?_⟩
  simp [CommandParser.new, parse_arg, hs]

/-- C1 witness: the amended theorem applied at a concrete non-numeric expiry. -/
theorem commandParser_error_vs_panic_witness :
    parseU64 "zzz" = none
    ∧ (CommandParser.new 7 [.text "FOOX"] = ParseResult.err
      ∧ CommandParser.new 7 [.text "GET"] = ParseResult.err
      ∧ CommandParser.new 7 [.text "SET", .text "k", .text "v", .text "PX", .text "zzz"]
          = ParseResult.panic "could not parse number") :=
  ⟨by decide, commandParser_error_vs_panic 7 "k" "v" "PX" "zzz" (by decide)⟩

/-- C2 (code bug): writing the key space `{"key" ↦ ("value", no expiry)}` with
the Snapshot Codec's writer and parsing the result back does not yield an
equal key space — the writer never emits the `0xFB` database-start marker the
reader insists on, so parsing fails outright. -/
theorem write_then_parse_fails :
    parse_rdb_file 0 0 (some (write_rdb_file [("key", { value := "value", expiry := none })]))
      = PResult.err "Database section did not start correctly" := by decide

/-- C3 (counterexample): with the key space `{"xabc"}` (which does not contain
the key "abc"), `keys("abc")` returns the key "xabc" — a key other than
"abc" matches the wildcard-free pattern, because `Regex::is_match` is a
substring search. -/
theorem keys_nonwildcard_matches_other_key :
    InMemoryStorage.keys "abc" [("xabc", { value := "v", expiry := none })] = some ["xabc"]
    ∧ ("xabc" : String) ≠ "abc" := ⟨by decide, by decide⟩

/-- C3 (amended): for a pattern containing no regex metacharacter at all
(no character of `regexMetaCodes` — in particular no wildcard), the source's
matcher reads the whole pattern as literal text and `Regex::new` cannot
fail, and a key is returned by `keys` exactly when it is in the key space
and *contains* the pattern as a substring; matching is unanchored, not
exact. -/
theorem keys_literal_pattern_substring (p k : String) (hay : List String)
    (hp : ∀ c ∈ p.data, c.toNat ∉ regexMetaCodes) :
    k ∈ needle_in_haystack p hay ↔ k ∈ hay ∧ p.data <:+: k.data := by
  have hp' : ∀ c ∈ p.data, c ≠ '*' ∧ c ≠ '.' := by
    intro c hc
    have h := hp c hc
    refine ⟨fun he => ?_, fun he => ?_⟩
    · subst he; exact h (by decide)
    · subst he; exact h (by decide)
  unfold needle_in_haystack
  rw [List.mem_filter, globToRegex_all_lit p.data hp', is_match_lit_iff]

/-- C3 witness: the amended theorem applied to the pattern "abc" and the
haystack `["xabc"]`. -/
theorem keys_literal_pattern_substring_witness :
    (∀ c ∈ "abc".data, c.toNat ∉ regexMetaCodes)
    ∧ ("xabc" ∈ needle_in_haystack "abc" ["xabc"]
        ↔ "xabc" ∈ ["xabc"] ∧ "abc".data <:+: "xabc".data) :=
  ⟨by decide, keys_literal_pattern_substring "abc" "xabc" ["xabc"] (by decide)⟩

/-- C4 (counterexample): after SET foo bar, executing GET foo produces the
simple-text reply `+bar\r\n`, not the bulk-string reply `$3\r\nbar\r\n` the
claim states. -/
theorem get_reply_not_bulk :
    Command.execute (.get "foo") 0
        (InMemoryStorage.set [] "foo" { value := "bar", expiry := none })
        (.ok ()) { dir := "", path := "" }
      = .ok ([("foo", { value := "bar", expiry := none })], "+bar\r\n")
    ∧ "+bar\r\n" ≠ "$3\r\nbar\r\n" := ⟨rfl, by decide⟩

/-- C4 (amended): executing SET with key "foo" and value "bar" (no expiry)
replies `+OK\r\n`, and a subsequent GET of "foo" replies with the simple-text
encoding `+bar\r\n` (GET uses a simple-string reply, not a bulk string). -/
theorem set_then_get_reply_simpletext (now : Int) (st : List (String × Value))
    (sr : Except Unit Unit) (cfg : RdbConfig) :
    Command.execute (.set "foo" "bar" none) now st sr cfg
      = .ok (InMemoryStorage.set st "foo" { value := "bar", expiry := none }, "+OK\r\n")
    ∧ Command.execute (.get "foo") now
        (InMemoryStorage.set st "foo" { value := "bar", expiry := none }) sr cfg
      = .ok (InMemoryStorage.set st "foo" { value := "bar", expiry := none }, "+bar\r\n") := by
  constructor
  · rfl
  · simp [Command.execute, InMemoryStorage.get, InMemoryStorage.set,
      mapGet_mapInsert_self, Entry.toString]

/-- C5 (counterexample): executing SAVE when the snapshot-write succeeds
replies with the nil reply `$-1\r\n`, which is not the simple-text OK reply
the claim states. -/
theorem save_success_reply_not_ok :
    Command.execute .save 0 [] (.ok ()) { dir := "", path := "" } = .ok ([], "$-1\r\n")
    ∧ "$-1\r\n" ≠ "+OK\r\n" := ⟨rfl, by decide⟩

/-- C5 (amended): SAVE consults the storage's snapshot-write result; on
success the reply is the nil reply `$-1\r\n` (not OK), and on failure
execution returns a `CommandError`. -/
theorem save_reply_nil_or_error (now : Int) (st : List (String × Value)) (cfg : RdbConfig) :
    Command.execute .save now st (.ok ()) cfg = .ok (st, "$-1\r\n")
    ∧ Command.execute .save now st (.error ()) cfg = .error CommandError.mk :=
  ⟨rfl, rfl⟩

/-- C6: `set(k, v, expiry)` followed by `get(k)` returns the value when the
expiry is absent or strictly in the future at the time of the get, and
returns absence when the expiry is strictly in the past. -/
theorem set_then_get_ttl (m : List (String × Value)) (k v : String) (now e : Int) :
    InMemoryStorage.get now (InMemoryStorage.set m k { value := v, expiry := none }) k
      = some { value := v, expiry := none }
    ∧ (now < e →
        InMemoryStorage.get now (InMemoryStorage.set m k { value := v, expiry := some e }) k
          = some { value := v, expiry := some e })
    ∧ (e < now →
        InMemoryStorage.get now (InMemoryStorage.set m k { value := v, expiry := some e }) k
          = none) := by
  refine ⟨?_, ?_, ?_⟩
  · simp [InMemoryStorage.get, InMemoryStorage.set, mapGet_mapInsert_self]
  · intro h
    have hn : ¬ now > e := by omega
    simp [InMemoryStorage.get, InMemoryStorage.set, mapGet_mapInsert_self, hn]
  · intro h
    have hy : now > e := h
    simp [InMemoryStorage.get, InMemoryStorage.set, mapGet_mapInsert_self, hy]

/-- C6 witness: the TTL theorem applied with `now = 5` to a future expiry 7
and a past expiry 3. -/
theorem set_then_get_ttl_witness :
    ((5 : Int) < 7
      ∧ InMemoryStorage.get 5 (InMemoryStorage.set [] "k" { value := "v", expiry := some 7 }) "k"
          = some { value := "v", expiry := some 7 })
    ∧ ((3 : Int) < 5
      ∧ InMemoryStorage.get 5 (InMemoryStorage.set [] "k" { value := "v", expiry := some 3 }) "k"
          = none) :=
  ⟨⟨by decide, (set_then_get_ttl [] "k" "v" 5 7).2.1 (by decide)⟩,
   ⟨by decide, (set_then_get_ttl [] "k" "v" 5 3).2.2 (by decide)⟩⟩

/-- C7 (counterexample): a buffer with a valid header, metadata, database
start and one complete entry `("k","v")`, followed by a truncated string
(length byte 5 with only 2 bytes left), makes the reader stop — but it
returns the partial key space as a *success*, with no reported error. -/
theorem entry_error_swallowed :
    parse_rdb_file 0 0 (some ([82, 69, 68, 73, 83, 0, 0, 0, 9] ++ [254, 251, 0, 0]
        ++ [0, 1, 107, 1, 118] ++ [0, 5, 97, 98]))
      = PResult.ok [("k", { value := "v", expiry := none })] := by decide

/-- C7 (amended): the reader has two failure regimes, and neither returns
both a partial key space and an error.  A structural violation before the
entry section (here: a buffer shorter than the 9-byte header) yields an
error with no entries, while a violation inside an entry makes the entry
loop stop and return the entries decoded so far as a plain success (the
error is only logged). -/
theorem parse_violation_regimes (nowSys nowInst : Int) (b : List Nat) (e : String)
    (m : List (String × Value)) (fuel : Nat) :
    (b ≠ [] → b.length < 9 →
      parse_rdb_file nowSys nowInst (some b) = PResult.err "File too short")
    ∧ (parse_rdb_entry nowSys nowInst b = PResult.err e →
        entry_loop nowSys nowInst (fuel + 1) m b = PResult.ok m) := by
  constructor
  · intro hne hlen
    have hbe : b.isEmpty = false := by
      cases b with
      | nil => exact absurd rfl hne
      | cons x xs => rfl
    simp [parse_rdb_file, hbe, parse_rdb_header, hlen]
  · intro h
    simp [entry_loop, h]

/-- C7 witness: the amended theorem applied to the one-byte buffer `[5]`,
which is both shorter than a header and an unknown entry type byte. -/
theorem parse_violation_regimes_witness :
    (([5] : List Nat) ≠ [] ∧ ([5] : List Nat).length < 9
      ∧ parse_rdb_file 0 0 (some [5]) = PResult.err "File too short")
    ∧ (parse_rdb_entry 0 0 [5] = PResult.err "unknown data type"
      ∧ entry_loop 0 0 1 [] [5] = PResult.ok []) :=
  ⟨⟨by decide, by decide,
     (parse_violation_regimes 0 0 [5] "unknown data type" [] 0).1 (by decide) (by decide)⟩,
   ⟨by decide, (parse_violation_regimes 0 0 [5] "unknown data type" [] 0).2 (by decide)⟩⟩

/-- C8: a missing snapshot file is not an error — `parse_rdb_file` yields the
empty key space, and `RdbStorage::load` succeeds with the empty key space. -/
theorem missing_file_empty_keyspace (nowSys nowInst : Int) :
    parse_rdb_file nowSys nowInst none = PResult.ok []
    ∧ RdbStorage.load nowSys nowInst none = PResult.ok [] :=
  ⟨rfl, rfl⟩

/-- A 256-byte ASCII key, one byte longer than the 1-byte length prefix can
represent. -/
def keyOf256 : String := String.mk (List.replicate 256 'a')

set_option maxRecDepth 8192 in
/-- C9 (counterexample): for a 256-byte key, the writer emits the length
prefix byte `0` (256 mod 256) followed by all 256 key bytes — a silently
inconsistent entry, neither a rejected write nor a truncated key. -/
theorem long_key_silent_mismatch :
    write_rdb_string keyOf256 = 0 :: strBytes keyOf256
    ∧ (strBytes keyOf256).length = 256 := ⟨by decide, by decide⟩

/-- C9 (amended): for every key longer than 255 bytes, the writer emits a
1-byte length prefix equal to the key's byte length modulo 256 followed by
all of the key's bytes, so the prefix always disagrees with the number of
key bytes actually written. -/
theorem long_key_prefix_mismatch (k : String) (h : 255 < (strBytes k).length) :
    write_rdb_string k = ((strBytes k).length % 256) :: strBytes k
    ∧ ((strBytes k).length % 256) ≠ (strBytes k).length := by
  refine ⟨rfl, ?_⟩
  have h2 : (strBytes k).length % 256 < 256 := Nat.mod_lt _ (by omega)
  omega

set_option maxRecDepth 8192 in
/-- C9 witness: the amended theorem applied to the 256-byte key. -/
theorem long_key_prefix_mismatch_witness :
    255 < (strBytes keyOf256).length
    ∧ (write_rdb_string keyOf256 = ((strBytes keyOf256).length % 256) :: strBytes keyOf256
      ∧ ((strBytes keyOf256).length % 256) ≠ (strBytes keyOf256).length) :=
  ⟨by decide, long_key_prefix_mismatch keyOf256 (by decide)⟩

/-- C10: the stored expiry deadline is exclusive — a value whose expiry
equals the current time is still returned, and in general `get` after `set`
with an expiry returns absence exactly when the current time is strictly
greater than the stored expiry. -/
theorem expiry_deadline_exclusive (m : List (String × Value)) (k v : String) (now e : Int) :
    InMemoryStorage.get now (InMemoryStorage.set m k { value := v, expiry := some now }) k
      = some { value := v, expiry := some now }
    ∧ InMemoryStorage.get now (InMemoryStorage.set m k { value := v, expiry := some e }) k
      = (if now > e then none else some { value := v, expiry := some e }) := by
  constructor
  · simp [InMemoryStorage.get, InMemoryStorage.set, mapGet_mapInsert_self]
  · simp [InMemoryStorage.get, InMemoryStorage.set, mapGet_mapInsert_self]
